import Mathlib

/-!
Verification of the ARC-C cryptoperiod calculator's scoring engine.

The definitions below are shallow embeddings of the pure computational
parts of the repository:

* `calculate_resilience`   — import_devices_ui.py, lines 111-136
* `get_import_values`      — import_devices_ui.py, lines 598-622
* `update_impact_stored`   — parameters_ui.py, lines 142-180 (data part)
* `map_information_rate_categories` — parameters_ui.py, lines 194-222
* `update_information_rate_layout`  — parameters_ui.py, lines 182-191 (data part)
* `substituteWorstCase`, `finalRiskCalc`, `cryptoperiod`, `showResults`
                           — main.py, lines 79-111 (ShowResults)

Machine floats are idealised as exact rationals (`ℚ`); the real-exponent
power in the final formula is modelled with `Real.rpow` over `ℝ`.
-/

namespace ARCC

/-- Confidentiality-impact category of a CVE.  Values outside the three
recognized categories are normalized to `NONE` by the caller
(import_devices_ui.py, lines 56-57), so the model only carries these three. -/
inductive Impact where
  | NONE
  | LOW
  | HIGH
deriving DecidableEq

/-- One CVE record as stored in `deviceInfoList`:
`cve_info = [cve_id, exploitability_score, confidentiality_impact]`. -/
structure CveInfo where
  id : String
  exploit : ℚ
  impact : Impact
deriving DecidableEq

/-- A CVE together with its enabled/patched status: `(cve_info, status)`. -/
abbrev CveEntry := CveInfo × Bool

/-- The multiplier chosen by the `if impact == 'NONE' / 'LOW' / 'HIGH'`
branches of `calculate_resilience` (import_devices_ui.py, lines 127-132). -/
def impactWeight : Impact → ℚ
  | .NONE => 1/10
  | .LOW => 3/10
  | .HIGH => 1

/-- `quantizedExploit = weight * (exploit / 3.9) ** c_w`
(import_devices_ui.py, lines 127-132). -/
def quantizedExploit (c_w : ℕ) (info : CveInfo) : ℚ :=
  impactWeight info.impact * (info.exploit / (39/10)) ^ c_w

/-- `calculate_resilience(cves, b_d=0.03, c_w=2)`
(import_devices_ui.py, lines 111-136): the running product
`deviceResilience` starts at 1, is multiplied by `1 - quantizedExploit`
for every entry with a true status, and the function returns
`b_d + (1 - b_d) * (1 - deviceResilience)`. -/
def calculate_resilience (cves : List CveEntry) (b_d : ℚ) (c_w : ℕ) : ℚ :=
  let deviceResilience :=
    cves.foldl (fun dr e => if e.2 then dr * (1 - quantizedExploit c_w e.1) else dr) 1
  b_d + (1 - b_d) * (1 - deviceResilience)

/-- One imported device: `(cpe name, [(cve_info, status), ...])`. -/
structure Device where
  cpe : String
  cves : List CveEntry
deriving DecidableEq

/-- `get_import_values()` (import_devices_ui.py, lines 598-622): returns
`(0, False)` when `deviceInfoList` is empty; otherwise filters every
device's CVE list down to the active entries, multiplies
`1 - calculate_resilience(cves)` over the devices and returns
`(1 - overallResilience, True)`. -/
def get_import_values (deviceInfoList : List Device) : ℚ × Bool :=
  match deviceInfoList with
  | [] => (0, false)
  | _ =>
    let activeDeviceInfoList :=
      deviceInfoList.map (fun d => Device.mk d.cpe (d.cves.filter (fun e => e.2)))
    let overallResilience :=
      activeDeviceInfoList.foldl
        (fun acc d => acc * (1 - calculate_resilience d.cves (3/100) 2)) 1
    (1 - overallResilience, true)

/-- The worst-case substitution in `ShowResults` (main.py, lines 91-92):
`if deviceProbability == 0: deviceProbability = 1`. -/
def substituteWorstCase (deviceProbability : ℚ) : ℚ :=
  if deviceProbability = 0 then 1 else deviceProbability

/-- `cryptoperiod = timeRange1 * (timeRange2 / timeRange1)**(1 - finalRisk)`
(main.py, line 106); the float `**` is modelled by `Real.rpow`. -/
noncomputable def cryptoperiod (timeRange1 timeRange2 finalRisk : ℝ) : ℝ :=
  timeRange1 * (timeRange2 / timeRange1) ^ (1 - finalRisk)

/-- The risk combination in `ShowResults` (main.py, lines 94-102):
`probability = 1 - (1 - deviceProbability)*(1 - policy)`,
`weight = 1 - impact**(1/3)`, `impact_term = impact * data**weight`,
`finalRisk = probability * impact_term`. -/
noncomputable def finalRiskCalc (deviceProbability policy impact data : ℝ) : ℝ :=
  let probability := 1 - (1 - deviceProbability) * (1 - policy)
  let weight := 1 - impact ^ ((1:ℝ)/3)
  let impactTerm := impact * data ^ weight
  probability * impactTerm

/-- The computational content of `ShowResults` (main.py, lines 79-111) on
the operator-confirmed path: abort (`none`) when `timeRange1 > timeRange2`,
otherwise apply the worst-case substitution to the imported probability and
return the cryptoperiod.  (The `EmptyImport` confirmation dialog and the
printing are presentation concerns and are not part of the result.) -/
noncomputable def showResults (importValues : ℚ × Bool)
    (policy impact data timeRange1 timeRange2 : ℝ) : Option ℝ :=
  if timeRange1 > timeRange2 then none
  else
    let deviceProbability : ℝ := ((substituteWorstCase importValues.1 : ℚ) : ℝ)
    some (cryptoperiod timeRange1 timeRange2
      (finalRiskCalc deviceProbability policy impact data))

/-- One row of the `returnValue` list produced by `display_results`
(parameters_logic.py, line 219):
`[group index, category, severity label, severity value]`. -/
structure SelectionEntry where
  group : ℕ
  category : String
  label : String
  score : ℚ
deriving DecidableEq, Inhabited

/-- One step of the grouping loop of `update_impact_layout`
(parameters_ui.py, lines 149-151): `category_scores[category].append(score)`
on a `defaultdict(list)`, represented as an insertion-ordered association
list. -/
def insertScore : List (String × List ℚ) → String → ℚ → List (String × List ℚ)
  | [], c, s => [(c, [s])]
  | (c', ss) :: rest, c, s =>
    if c' = c then (c', ss ++ [s]) :: rest
    else (c', ss) :: insertScore rest c s

/-- The grouping loop of `update_impact_layout` over the whole
`returnValue` list. -/
def groupScores (returnValue : List SelectionEntry) : List (String × List ℚ) :=
  returnValue.foldl (fun acc e => insertScore acc e.category e.score) []

/-- `multiplied_scores` and the pre-clamp average of `update_impact_layout`
(parameters_ui.py, lines 154-162): per-category products, then
`sum / len`, with 0 when no category is present. -/
def impactExtentRaw (returnValue : List SelectionEntry) : ℚ :=
  let multiplied_scores := (groupScores returnValue).map (fun p => p.2.prod)
  if multiplied_scores = [] then 0
  else multiplied_scores.sum / multiplied_scores.length

/-- Python's built-in `round` to an integer: nearest, ties to even. -/
def roundHalfEven (x : ℚ) : ℤ :=
  if x - ⌊x⌋ < 1/2 then ⌊x⌋
  else if 1/2 < x - ⌊x⌋ then ⌊x⌋ + 1
  else if ⌊x⌋ % 2 = 0 then ⌊x⌋ else ⌊x⌋ + 1

/-- Python's `round(q, 2)`: round to two decimal places, ties to even. -/
def pyRound2 (q : ℚ) : ℚ := (roundHalfEven (q * 100) : ℚ) / 100

/-- The value stored into `values.impact` by `update_impact_layout`
(parameters_ui.py, lines 174-180): the average is clamped by
`min(impactExtent, 1)` and stored as `round(impactExtent, 2)`. -/
def update_impact_stored (returnValue : List SelectionEntry) : ℚ :=
  pyRound2 (min (impactExtentRaw returnValue) 1)

/-- Lookup of one category's collected scores in an association list;
proof infrastructure for relating `groupScores` to its specification. -/
def lookupScores : List (String × List ℚ) → String → List ℚ
  | [], _ => []
  | (c', ss) :: rest, c => if c' = c then ss else lookupScores rest c

/-- Spec-side impact scorer, following the spec's words: the distinct
top-level categories present, in order of first appearance. -/
def specCategoryKeys (returnValue : List SelectionEntry) : List String :=
  (returnValue.map (fun e => e.category)).foldl
    (fun ks c => if c ∈ ks then ks else ks ++ [c]) []

/-- Spec-side impact scorer: the product of the selected severity weights
within each category present. -/
def specCategoryProducts (returnValue : List SelectionEntry) : List ℚ :=
  (specCategoryKeys returnValue).map
    (fun c => ((returnValue.filter (fun e => e.category = c)).map (fun e => e.score)).prod)

/-- Spec-side impact scorer, following the spec's words: "groups selected
severities by top-level category, multiplies severity weights within a
category, then averages the per-category products across all categories
present", with the result "clamped to a maximum of 1". -/
def specImpactScore (returnValue : List SelectionEntry) : ℚ :=
  let ps := specCategoryProducts returnValue
  min (if ps = [] then 0 else ps.sum / ps.length) 1

/-- `severityMap.get(level)` for
`severityMap = {"Low": 0, "Medium": 1, "High": 2}`
(parameters_ui.py, lines 199, 208-209). -/
def severityMapGet (level : String) : Option ℕ :=
  if level = "Low" then some 0
  else if level = "Medium" then some 1
  else if level = "High" then some 2
  else none

/-- The fixed 3×3 information-rate table `chart`
(parameters_ui.py, lines 214-218); rows are indexed by the publishers
level, columns by the data-rate level. -/
def infoRateChart : List (List (String × ℚ)) :=
  [[("Very Low", 1/10), ("Low", 3/10), ("Moderate", 3/4)],
   [("Low", 3/10), ("Moderate", 3/4), ("High", 9/10)],
   [("Moderate", 3/4), ("High", 9/10), ("Very High", 1)]]

/-- `map_information_rate_categories` (parameters_ui.py, lines 194-222):
returns either the `[label, score]` chart entry (`Sum.inr`, the Python
list) or one of the sentinel strings `"Incomplete data"` /
`"Invalid severity level"` (`Sum.inl`, the Python string). -/
def map_information_rate_categories (returnValue : List SelectionEntry) :
    Sum String (String × ℚ) :=
  match returnValue with
  | a :: b :: _ =>
    match severityMapGet a.label, severityMapGet b.label with
    | some informationRateIndex, some publishersIndex =>
      Sum.inr ((infoRateChart.getD publishersIndex []).getD informationRateIndex ("", 0))
    | _, _ => Sum.inl "Invalid severity level"
  | _ => Sum.inl "Incomplete data"

/-- The data behaviour of `update_information_rate_layout`
(parameters_ui.py, lines 182-191).  The call site unpacks the scorer's
return value as `severityLabel, severityValue = ...`; when the scorer
returned a sentinel string (15 resp. 22 characters, not a 2-element
sequence) this unpacking raises `ValueError`, modelled as `Except.error`;
otherwise `values.information` is set to the numeric score (`Except.ok`). -/
def update_information_rate_layout (returnValue : List SelectionEntry) :
    Except String ℚ :=
  match map_information_rate_categories returnValue with
  | Sum.inr (_, severityValue) => Except.ok severityValue
  | Sum.inl _ => Except.error "ValueError: unpacking a sentinel string"

/-- The non-compromise factor contributed by one CVE entry. -/
def cveFactor (c_w : ℕ) (e : CveEntry) : ℚ := 1 - quantizedExploit c_w e.1

lemma foldl_mul_eq_prod {α : Type} (g : α → ℚ) :
    ∀ (l : List α) (a : ℚ), l.foldl (fun acc x => acc * g x) a = a * (l.map g).prod := by
  intro l
  induction l with
  | nil => intro a; simp
  | cons x t ih =>
    intro a
    simp only [List.foldl_cons, List.map_cons, List.prod_cons, ih (a * g x)]
    ring

lemma foldl_if_mul_eq_prod {α : Type} (p : α → Bool) (g : α → ℚ) :
    ∀ (l : List α) (a : ℚ),
      l.foldl (fun acc x => if p x then acc * g x else acc) a
        = a * ((l.filter p).map g).prod := by
  intro l
  induction l with
  | nil => intro a; simp
  | cons x t ih =>
    intro a
    cases hx : p x with
    | true =>
      simp only [List.foldl_cons, hx, if_true, ih (a * g x), List.filter_cons, hx,
        List.map_cons, List.prod_cons]
      ring
    | false =>
      simp [List.foldl_cons, hx, ih a, List.filter_cons]

lemma resilience_eq (cves : List CveEntry) (b_d : ℚ) (c_w : ℕ) :
    calculate_resilience cves b_d c_w
      = b_d + (1 - b_d) * (1 - ((cves.filter (fun e => e.2)).map (cveFactor c_w)).prod) := by
  unfold calculate_resilience
  rw [show (fun (dr : ℚ) (e : CveEntry) => if e.2 then dr * (1 - quantizedExploit c_w e.1) else dr)
        = fun dr e => if (fun e : CveEntry => e.2) e then dr * cveFactor c_w e else dr from rfl,
    foldl_if_mul_eq_prod (fun e : CveEntry => e.2) (cveFactor c_w) cves 1, one_mul]

lemma resilience_filter (cves : List CveEntry) (b_d : ℚ) (c_w : ℕ) :
    calculate_resilience (cves.filter (fun e => e.2)) b_d c_w
      = calculate_resilience cves b_d c_w := by
  rw [resilience_eq, resilience_eq, List.filter_filter]
  simp

lemma get_import_values_of_ne_nil (devs : List Device) (h : devs ≠ []) :
    get_import_values devs
      = (1 - (devs.map (fun d => 1 - calculate_resilience d.cves (3/100) 2)).prod, true) := by
  match devs with
  | [] => exact absurd rfl h
  | d :: t =>
    show (1 - List.foldl _ 1 ((d :: t).map _), true) = _
    rw [show (fun (acc : ℚ) (dev : Device) => acc * (1 - calculate_resilience dev.cves (3/100) 2))
          = fun acc dev => acc * (fun dev : Device => 1 - calculate_resilience dev.cves (3/100) 2) dev
        from rfl,
      foldl_mul_eq_prod _ _ 1, one_mul, List.map_map]
    have : ((fun dev : Device => 1 - calculate_resilience dev.cves (3/100) 2) ∘
        fun d : Device => Device.mk d.cpe (d.cves.filter (fun e => e.2)))
        = fun d : Device => 1 - calculate_resilience d.cves (3/100) 2 := by
      funext dev
      simp [Function.comp, resilience_filter]
    rw [this]

lemma list_prod_nonneg : ∀ (l : List ℚ), (∀ x ∈ l, 0 ≤ x) → 0 ≤ l.prod := by
  intro l
  induction l with
  | nil => intro _; simp
  | cons x t ih =>
    intro h
    rw [List.prod_cons]
    exact mul_nonneg (h x (by simp)) (ih fun y hy => h y (by simp [hy]))

lemma list_prod_le_one : ∀ (l : List ℚ), (∀ x ∈ l, 0 ≤ x ∧ x ≤ 1) → l.prod ≤ 1 := by
  intro l
  induction l with
  | nil => intro _; simp
  | cons x t ih =>
    intro h
    rw [List.prod_cons]
    have hx := h x (by simp)
    have ht : ∀ y ∈ t, 0 ≤ y ∧ y ≤ 1 := fun y hy => h y (by simp [hy])
    have h1 : t.prod ≤ 1 := ih ht
    have h0 : 0 ≤ t.prod := list_prod_nonneg t fun y hy => (ht y hy).1
    nlinarith [hx.1, hx.2]

lemma list_prod_le_pow (c : ℚ) (hc : 0 ≤ c) :
    ∀ (l : List ℚ), (∀ x ∈ l, 0 ≤ x ∧ x ≤ c) → l.prod ≤ c ^ l.length := by
  intro l
  induction l with
  | nil => intro _; simp
  | cons x t ih =>
    intro h
    rw [List.prod_cons, List.length_cons, pow_succ]
    have hx := h x (by simp)
    have ht : ∀ y ∈ t, 0 ≤ y ∧ y ≤ c := fun y hy => h y (by simp [hy])
    have h1 : t.prod ≤ c ^ t.length := ih ht
    have h0 : 0 ≤ t.prod := list_prod_nonneg t fun y hy => (ht y hy).1
    calc x * t.prod ≤ c * t.prod := by nlinarith [hx.1, hx.2]
    _ ≤ c * c ^ t.length := by nlinarith
    _ = c ^ t.length * c := by ring

lemma impactWeight_pos (i : Impact) : 0 < impactWeight i := by
  cases i <;> norm_num [impactWeight]

lemma impactWeight_le_one (i : Impact) : impactWeight i ≤ 1 := by
  cases i <;> norm_num [impactWeight]

lemma quantizedExploit_mem (info : CveInfo) (h0 : 0 ≤ info.exploit)
    (h1 : info.exploit ≤ 39/10) :
    0 ≤ quantizedExploit 2 info ∧ quantizedExploit 2 info ≤ 1 := by
  unfold quantizedExploit
  have hw0 := impactWeight_pos info.impact
  have hw1 := impactWeight_le_one info.impact
  have hq0 : (0:ℚ) ≤ info.exploit / (39/10) := by positivity
  have hq1 : info.exploit / (39/10) ≤ 1 := by
    rw [div_le_one (by norm_num)]
    exact h1
  constructor
  · positivity
  · nlinarith

lemma cveFactor_mem (e : CveEntry) (h0 : 0 ≤ e.1.exploit) (h1 : e.1.exploit ≤ 39/10) :
    0 ≤ cveFactor 2 e ∧ cveFactor 2 e ≤ 1 := by
  have := quantizedExploit_mem e.1 h0 h1
  unfold cveFactor
  constructor <;> linarith [this.1, this.2]

lemma resilience_mem (cves : List CveEntry)
    (h : ∀ e ∈ cves, 0 ≤ e.1.exploit ∧ e.1.exploit ≤ 39/10) :
    3/100 ≤ calculate_resilience cves (3/100) 2 ∧ calculate_resilience cves (3/100) 2 ≤ 1 := by
  rw [resilience_eq]
  set P := ((cves.filter (fun e => e.2)).map (cveFactor 2)).prod with hP
  have hmem : ∀ x ∈ (cves.filter (fun e => e.2)).map (cveFactor 2), 0 ≤ x ∧ x ≤ 1 := by
    intro x hx
    rcases List.mem_map.1 hx with ⟨e, he, rfl⟩
    have he' : e ∈ cves := List.mem_of_mem_filter he
    exact cveFactor_mem e (h e he').1 (h e he').2
  have h0 : 0 ≤ P := list_prod_nonneg _ fun x hx => (hmem x hx).1
  have h1 : P ≤ 1 := list_prod_le_one _ hmem
  constructor <;> linarith

end ARCC

namespace ARCC

/-- C1: `calculate_resilience` with the default parameters `b_d = 0.03`,
`c_w = 2` returns
`0.03 + (1 - 0.03) * (1 - ∏ enabled (1 - weight(impact) * (exploit/3.9)^2))`,
where the product runs over the enabled entries only (disabled entries
contribute nothing), and a list with zero enabled entries yields exactly
the base rate `0.03`. -/
theorem C1_resilience_formula (cves : List CveEntry) :
    calculate_resilience cves (3/100) 2
      = 3/100 + (1 - 3/100) *
          (1 - ((cves.filter (fun e => e.2)).map
            (fun e => 1 - impactWeight e.1.impact * (e.1.exploit / (39/10)) ^ 2)).prod)
    ∧ (cves.filter (fun e => e.2) = [] →
        calculate_resilience cves (3/100) 2 = 3/100) := by
  constructor
  · rw [resilience_eq]
    rfl
  · intro hnil
    rw [resilience_eq, hnil]
    norm_num

/-- Witness for C1 at a concrete one-element list whose single entry is
disabled: the filter is empty and the result is exactly the base rate. -/
theorem C1_witness :
    ([((⟨"CVE-1", 2, Impact.LOW⟩ : CveInfo), false)] : List CveEntry).filter
        (fun e => e.2) = []
    ∧ calculate_resilience [((⟨"CVE-1", 2, Impact.LOW⟩ : CveInfo), false)] (3/100) 2
        = 3/100 := by
  refine ⟨by simp, (C1_resilience_formula _).2 (by simp)⟩

/-- C2: for every non-empty device list the aggregator returns
`totalCompromise = 1 - ∏ devices (1 - deviceResilience)` together with the
`hasDevices = true` flag, and when every vulnerability of every device is
disabled the value is `1 - (1 - 0.03)^N` for `N` devices. -/
theorem C2_aggregate_formula (devs : List Device) (h : devs ≠ []) :
    get_import_values devs
      = (1 - (devs.map (fun d => 1 - calculate_resilience d.cves (3/100) 2)).prod, true)
    ∧ ((∀ d ∈ devs, ∀ e ∈ d.cves, e.2 = false) →
        (get_import_values devs).1 = 1 - (1 - 3/100) ^ devs.length) := by
  have hmain := get_import_values_of_ne_nil devs h
  refine ⟨hmain, fun hdis => ?_⟩
  rw [hmain]
  have hconst : ∀ d ∈ devs, (fun d : Device =>
      1 - calculate_resilience d.cves (3/100) 2) d = 1 - 3/100 := by
    intro d hd
    have hflt : d.cves.filter (fun e => e.2) = [] := by
      rw [List.filter_eq_nil_iff]
      intro e he
      simp [hdis d hd e he]
    simp only []
    rw [(resilience_eq d.cves (3/100) 2), hflt]
    norm_num
  have : (devs.map (fun d => 1 - calculate_resilience d.cves (3/100) 2)).prod
      = (1 - 3/100) ^ devs.length := by
    rw [List.prod_eq_pow_card _ (1 - 3/100), List.length_map]
    intro x hx
    rcases List.mem_map.1 hx with ⟨d, hd, rfl⟩
    exact hconst d hd
  rw [this]

/-- Witness for C2 at a concrete two-device list whose vulnerabilities are
all disabled: the aggregate equals `1 - 0.97^2`. -/
theorem C2_witness :
    ([⟨"plc1", [((⟨"CVE-1", 2, Impact.HIGH⟩ : CveInfo), false)]⟩,
      ⟨"plc2", []⟩] : List Device) ≠ []
    ∧ (get_import_values
        [⟨"plc1", [((⟨"CVE-1", 2, Impact.HIGH⟩ : CveInfo), false)]⟩, ⟨"plc2", []⟩]).1
        = 1 - (1 - 3/100) ^ 2 := by
  refine ⟨by simp, ?_⟩
  exact (C2_aggregate_formula _ (by simp)).2 (by simp)

/-- C7 counterexample: the concrete single-CVE list with exploitability 3.9
(the top of the allowed range) and HIGH confidentiality impact makes
`calculate_resilience` return exactly 1, so the result is not in `[0, 1)`. -/
theorem C7_counterexample :
    (0:ℚ) ≤ 39/10 ∧ (39/10 : ℚ) ≤ 39/10
    ∧ calculate_resilience [((⟨"CVE-A", 39/10, Impact.HIGH⟩ : CveInfo), true)] (3/100) 2 = 1
    ∧ ¬ calculate_resilience [((⟨"CVE-A", 39/10, Impact.HIGH⟩ : CveInfo), true)] (3/100) 2
        < 1 := by
  norm_num [calculate_resilience, quantizedExploit, impactWeight, List.foldl]

/-- C7 amended: for every vulnerability list whose exploitability scores lie
in `[0, 3.9]`, the resilience value lies in the closed interval `[0, 1]`
(it reaches 1 when an enabled vulnerability has exploitability 3.9 with
HIGH impact). -/
theorem C7_range (cves : List CveEntry)
    (h : ∀ e ∈ cves, 0 ≤ e.1.exploit ∧ e.1.exploit ≤ 39/10) :
    0 ≤ calculate_resilience cves (3/100) 2
    ∧ calculate_resilience cves (3/100) 2 ≤ 1 := by
  have := resilience_mem cves h
  exact ⟨by linarith [this.1], this.2⟩

/-- Witness for C7 at a concrete in-range list. -/
theorem C7_witness :
    (∀ e ∈ ([((⟨"CVE-B", 1, Impact.LOW⟩ : CveInfo), true)] : List CveEntry),
      0 ≤ e.1.exploit ∧ e.1.exploit ≤ 39/10)
    ∧ (0 ≤ calculate_resilience [((⟨"CVE-B", 1, Impact.LOW⟩ : CveInfo), true)] (3/100) 2
        ∧ calculate_resilience [((⟨"CVE-B", 1, Impact.LOW⟩ : CveInfo), true)] (3/100) 2 ≤ 1) := by
  have h : ∀ e ∈ ([((⟨"CVE-B", 1, Impact.LOW⟩ : CveInfo), true)] : List CveEntry),
      0 ≤ e.1.exploit ∧ e.1.exploit ≤ 39/10 := by
    intro e he
    simp only [List.mem_singleton] at he
    subst he
    norm_num
  exact ⟨h, C7_range _ h⟩

/-- C10: with exploitability scores in `[0, 3.9]`, the empty device list is
the only way to get the `(0, false)` "no data" result: every non-empty
list yields `hasDevices = true`, per-device resilience at least 0.03, an
aggregate of at least `1 - 0.97^N`, hence strictly positive, and the final
calculator's `probability == 0` worst-case substitution leaves it
unchanged. -/
theorem C10_positivity (devs : List Device)
    (h : ∀ d ∈ devs, ∀ e ∈ d.cves, 0 ≤ e.1.exploit ∧ e.1.exploit ≤ 39/10) :
    (devs = [] → get_import_values devs = (0, false))
    ∧ (devs ≠ [] →
        (get_import_values devs).2 = true
        ∧ (∀ d ∈ devs, 3/100 ≤ calculate_resilience d.cves (3/100) 2)
        ∧ 1 - (1 - 3/100) ^ devs.length ≤ (get_import_values devs).1
        ∧ 0 < (get_import_values devs).1
        ∧ substituteWorstCase (get_import_values devs).1 = (get_import_values devs).1) := by
  constructor
  · intro hnil
    subst hnil
    rfl
  · intro hne
    have hmain := get_import_values_of_ne_nil devs hne
    have hmem : ∀ x ∈ devs.map (fun d => 1 - calculate_resilience d.cves (3/100) 2),
        0 ≤ x ∧ x ≤ 1 - 3/100 := by
      intro x hx
      rcases List.mem_map.1 hx with ⟨d, hd, rfl⟩
      have := resilience_mem d.cves (h d hd)
      constructor <;> linarith [this.1, this.2]
    have hlen : (devs.map (fun d => 1 - calculate_resilience d.cves (3/100) 2)).length
        = devs.length := List.length_map _ _
    have hprod_le : (devs.map (fun d => 1 - calculate_resilience d.cves (3/100) 2)).prod
        ≤ (1 - 3/100) ^ devs.length := by
      rw [← hlen]
      exact list_prod_le_pow _ (by norm_num) _ hmem
    have hpow_lt : ((1:ℚ) - 3/100) ^ devs.length < 1 := by
      apply pow_lt_one₀ (by norm_num) (by norm_num)
      intro hlen0
      exact hne (List.length_eq_zero.1 hlen0)
    have hpos : 0 < (get_import_values devs).1 := by
      rw [hmain]
      simp only []
      linarith
    refine ⟨by rw [hmain], fun d hd => (resilience_mem d.cves (h d hd)).1, ?_, hpos, ?_⟩
    · rw [hmain]
      simp only []
      linarith
    · unfold substituteWorstCase
      rw [if_neg (ne_of_gt hpos)]

/-- C6 counterexample: in the presence of another enabled vulnerability with
exploitability 3.9 and HIGH impact (whose non-compromise factor is 0),
raising an enabled vulnerability's exploitability from 1 to 2 (inside
`[0, 3.9]`) leaves the device resilience unchanged at 1, and likewise the
aggregate over two devices is unchanged, so the strict-increase claim
fails. -/
theorem C6_counterexample :
    (0:ℚ) ≤ 1 ∧ (1:ℚ) < 2 ∧ (2:ℚ) ≤ 39/10
    ∧ calculate_resilience
        [((⟨"CVE-A", 39/10, Impact.HIGH⟩ : CveInfo), true),
         ((⟨"CVE-B", 1, Impact.HIGH⟩ : CveInfo), true)] (3/100) 2
      = calculate_resilience
        [((⟨"CVE-A", 39/10, Impact.HIGH⟩ : CveInfo), true),
         ((⟨"CVE-B", 2, Impact.HIGH⟩ : CveInfo), true)] (3/100) 2
    ∧ ¬ calculate_resilience
        [((⟨"CVE-A", 39/10, Impact.HIGH⟩ : CveInfo), true),
         ((⟨"CVE-B", 1, Impact.HIGH⟩ : CveInfo), true)] (3/100) 2
      < calculate_resilience
        [((⟨"CVE-A", 39/10, Impact.HIGH⟩ : CveInfo), true),
         ((⟨"CVE-B", 2, Impact.HIGH⟩ : CveInfo), true)] (3/100) 2
    ∧ calculate_resilience [((⟨"CVE-B", 1, Impact.HIGH⟩ : CveInfo), true)] (3/100) 2
      < calculate_resilience [((⟨"CVE-B", 2, Impact.HIGH⟩ : CveInfo), true)] (3/100) 2
    ∧ (get_import_values
        [⟨"plcA", [((⟨"CVE-A", 39/10, Impact.HIGH⟩ : CveInfo), true)]⟩,
         ⟨"plcB", [((⟨"CVE-B", 1, Impact.HIGH⟩ : CveInfo), true)]⟩]).1
      = (get_import_values
        [⟨"plcA", [((⟨"CVE-A", 39/10, Impact.HIGH⟩ : CveInfo), true)]⟩,
         ⟨"plcB", [((⟨"CVE-B", 2, Impact.HIGH⟩ : CveInfo), true)]⟩]).1 := by
  norm_num [calculate_resilience, quantizedExploit, impactWeight, get_import_values,
    List.foldl, List.filter]

/-- C6 amended: strictly increasing an enabled vulnerability's
exploitability strictly increases the device resilience, provided the
product of the non-compromise factors of the other enabled vulnerabilities
is positive (in particular, no other enabled vulnerability has
exploitability 3.9 with HIGH impact); and strictly increasing one device's
resilience strictly increases the aggregate, provided the product of the
other devices' non-compromise factors is positive (no other device has
resilience 1). -/
theorem C6_monotonicity :
    (∀ (pre post : List CveEntry) (s : String) (imp : Impact) (e e' : ℚ),
      0 ≤ e → e < e' → e' ≤ 39/10 →
      0 < ((pre.filter (fun x => x.2)).map (cveFactor 2)).prod *
          ((post.filter (fun x => x.2)).map (cveFactor 2)).prod →
      calculate_resilience (pre ++ ((⟨s, e, imp⟩ : CveInfo), true) :: post) (3/100) 2
        < calculate_resilience (pre ++ ((⟨s, e', imp⟩ : CveInfo), true) :: post) (3/100) 2)
    ∧ (∀ (pre post : List Device) (cpe : String) (cves cves' : List CveEntry),
      calculate_resilience cves (3/100) 2 < calculate_resilience cves' (3/100) 2 →
      0 < (pre.map (fun d => 1 - calculate_resilience d.cves (3/100) 2)).prod *
          (post.map (fun d => 1 - calculate_resilience d.cves (3/100) 2)).prod →
      (get_import_values (pre ++ ⟨cpe, cves⟩ :: post)).1
        < (get_import_values (pre ++ ⟨cpe, cves'⟩ :: post)).1) := by
  constructor
  · intro pre post s imp e e' h0 hlt _h39 hpos
    rw [resilience_eq, resilience_eq]
    simp only [List.filter_append, List.filter_cons, List.map_append, List.prod_append,
      List.map_cons, List.prod_cons, if_true]
    set P := ((pre.filter (fun x => x.2)).map (cveFactor 2)).prod with hPdef
    set Q := ((post.filter (fun x => x.2)).map (cveFactor 2)).prod with hQdef
    have hfac : cveFactor 2 ((⟨s, e', imp⟩ : CveInfo), true)
        < cveFactor 2 ((⟨s, e, imp⟩ : CveInfo), true) := by
      unfold cveFactor quantizedExploit
      simp only []
      have hw := impactWeight_pos imp
      have he2 : e ^ 2 < e' ^ 2 := by nlinarith
      have expand : ∀ x : ℚ, (x / (39/10)) ^ 2 = x ^ 2 * (100/1521) := by
        intro x
        field_simp
        ring
      rw [expand, expand]
      nlinarith
    have key : 0 < (P * Q) *
        (cveFactor 2 ((⟨s, e, imp⟩ : CveInfo), true)
          - cveFactor 2 ((⟨s, e', imp⟩ : CveInfo), true)) :=
      mul_pos hpos (by linarith)
    nlinarith [key]
  · intro pre post cpe cves cves' hlt hpos
    have h1 : (pre ++ (⟨cpe, cves⟩ : Device) :: post) ≠ [] := by simp
    have h2 : (pre ++ (⟨cpe, cves'⟩ : Device) :: post) ≠ [] := by simp
    rw [get_import_values_of_ne_nil _ h1, get_import_values_of_ne_nil _ h2]
    simp only [List.map_append, List.prod_append, List.map_cons, List.prod_cons]
    set P := (pre.map (fun d => 1 - calculate_resilience d.cves (3/100) 2)).prod with hPdef
    set Q := (post.map (fun d => 1 - calculate_resilience d.cves (3/100) 2)).prod with hQdef
    have key : 0 < (P * Q) *
        (calculate_resilience cves' (3/100) 2 - calculate_resilience cves (3/100) 2) :=
      mul_pos hpos (by linarith)
    nlinarith [key]

/-- Witness for C6 at concrete inputs: a single enabled HIGH-impact
vulnerability whose exploitability rises from 1 to 2 strictly increases
resilience, and swapping an empty CVE list for that vulnerability strictly
increases the one-device aggregate. -/
theorem C6_monotonicity_witness :
    calculate_resilience [((⟨"CVE-1", 1, Impact.HIGH⟩ : CveInfo), true)] (3/100) 2
      < calculate_resilience [((⟨"CVE-1", 2, Impact.HIGH⟩ : CveInfo), true)] (3/100) 2
    ∧ (get_import_values [⟨"plc", []⟩]).1
      < (get_import_values [⟨"plc", [((⟨"CVE-1", 1, Impact.HIGH⟩ : CveInfo), true)]⟩]).1 := by
  constructor
  · have := C6_monotonicity.1 [] [] "CVE-1" Impact.HIGH 1 2
      (by norm_num) (by norm_num) (by norm_num) (by norm_num)
    simpa using this
  · have := C6_monotonicity.2 [] [] "plc" [] [((⟨"CVE-1", 1, Impact.HIGH⟩ : CveInfo), true)]
      (by norm_num [calculate_resilience, quantizedExploit, impactWeight, List.foldl])
      (by norm_num)
    simpa using this

/-- Witness for C10 at a concrete one-device list. -/
theorem C10_witness :
    (∀ d ∈ ([⟨"plc", [((⟨"CVE-1", 1, Impact.HIGH⟩ : CveInfo), true)]⟩] : List Device),
      ∀ e ∈ d.cves, 0 ≤ e.1.exploit ∧ e.1.exploit ≤ 39/10)
    ∧ 0 < (get_import_values
        [⟨"plc", [((⟨"CVE-1", 1, Impact.HIGH⟩ : CveInfo), true)]⟩]).1
    ∧ substituteWorstCase (get_import_values
        [⟨"plc", [((⟨"CVE-1", 1, Impact.HIGH⟩ : CveInfo), true)]⟩]).1
      = (get_import_values
        [⟨"plc", [((⟨"CVE-1", 1, Impact.HIGH⟩ : CveInfo), true)]⟩]).1 := by
  have h : ∀ d ∈ ([⟨"plc", [((⟨"CVE-1", 1, Impact.HIGH⟩ : CveInfo), true)]⟩] : List Device),
      ∀ e ∈ d.cves, 0 ≤ e.1.exploit ∧ e.1.exploit ≤ 39/10 := by
    intro d hd e he
    simp only [List.mem_singleton] at hd
    subst hd
    simp only [List.mem_singleton] at he
    subst he
    norm_num
  have := (C10_positivity _ h).2 (by simp)
  exact ⟨h, this.2.2.2.1, this.2.2.2.2⟩

/-- C3: for `0 < minHours < maxHours` and `finalRisk ∈ [0,1]` the
recommended cryptoperiod is `minHours * (maxHours/minHours)^(1-finalRisk)`,
lies within `[minHours, maxHours]`, equals `maxHours` at `finalRisk = 0`
and equals `minHours` at `finalRisk = 1`. -/
theorem C3_cryptoperiod_bounds (minHours maxHours finalRisk : ℝ)
    (hmin : 0 < minHours) (hlt : minHours < maxHours)
    (h0 : 0 ≤ finalRisk) (h1 : finalRisk ≤ 1) :
    cryptoperiod minHours maxHours finalRisk
        = minHours * (maxHours / minHours) ^ (1 - finalRisk)
    ∧ minHours ≤ cryptoperiod minHours maxHours finalRisk
    ∧ cryptoperiod minHours maxHours finalRisk ≤ maxHours
    ∧ cryptoperiod minHours maxHours 0 = maxHours
    ∧ cryptoperiod minHours maxHours 1 = minHours := by
  have hbase : 1 ≤ maxHours / minHours := by
    rw [le_div_iff₀ hmin]
    linarith
  have hlow : (1:ℝ) ≤ (maxHours / minHours) ^ (1 - finalRisk) := by
    have := Real.rpow_le_rpow_of_exponent_le hbase
      (show (0:ℝ) ≤ 1 - finalRisk by linarith)
    rwa [Real.rpow_zero] at this
  have hhigh : (maxHours / minHours) ^ (1 - finalRisk) ≤ maxHours / minHours := by
    have := Real.rpow_le_rpow_of_exponent_le hbase
      (show (1:ℝ) - finalRisk ≤ 1 by linarith)
    rwa [Real.rpow_one] at this
  have hcancel : minHours * (maxHours / minHours) = maxHours := by
    field_simp
  refine ⟨rfl, ?_, ?_, ?_, ?_⟩
  · unfold cryptoperiod
    nlinarith
  · unfold cryptoperiod
    nlinarith
  · unfold cryptoperiod
    rw [show (1:ℝ) - 0 = 1 by norm_num, Real.rpow_one, hcancel]
  · unfold cryptoperiod
    rw [sub_self, Real.rpow_zero, mul_one]

/-- Witness for C3 at `minHours = 1`, `maxHours = 2`, `finalRisk = 1/2`. -/
theorem C3_cryptoperiod_witness :
    ((0:ℝ) < 1 ∧ (1:ℝ) < 2 ∧ (0:ℝ) ≤ 1/2 ∧ (1/2:ℝ) ≤ 1)
    ∧ (1 ≤ cryptoperiod 1 2 (1/2) ∧ cryptoperiod 1 2 (1/2) ≤ 2
        ∧ cryptoperiod 1 2 0 = 2 ∧ cryptoperiod 1 2 1 = 1) := by
  have h := C3_cryptoperiod_bounds 1 2 (1/2)
    (by norm_num) (by norm_num) (by norm_num) (by norm_num)
  exact ⟨⟨by norm_num, by norm_num, by norm_num, by norm_num⟩,
    h.2.1, h.2.2.1, h.2.2.2.1, h.2.2.2.2⟩

/-- C4: the empty device list yields the distinguished `(0, false)` result
(`hasDevices = false`), and the final calculator then substitutes the
worst case `deviceProbability = 1` before computing the cryptoperiod. -/
theorem C4_empty_worst_case :
    get_import_values [] = (0, false)
    ∧ substituteWorstCase (get_import_values []).1 = 1
    ∧ (∀ (policy impact data t1 t2 : ℝ), ¬ t1 > t2 →
        showResults (get_import_values []) policy impact data t1 t2
          = some (cryptoperiod t1 t2 (finalRiskCalc 1 policy impact data))) := by
  refine ⟨rfl, by norm_num [substituteWorstCase, get_import_values], ?_⟩
  intro policy impact data t1 t2 h
  have h0 : (get_import_values ([] : List Device)).1 = 0 := rfl
  simp only [showResults, if_neg h, h0]
  norm_num [substituteWorstCase]

/-- Witness for C4 at `policy = impact = data = 0`, window `[1, 2]`. -/
theorem C4_empty_worst_case_witness :
    ¬ (1:ℝ) > 2
    ∧ showResults (get_import_values []) 0 0 0 1 2
        = some (cryptoperiod 1 2 (finalRiskCalc 1 0 0 0)) := by
  refine ⟨by norm_num, ?_⟩
  exact C4_empty_worst_case.2.2 0 0 0 1 2 (by norm_num)

/-- C5 (code evaluation at the failing input): when the minimum and maximum
cryptoperiod windows are equal (both 24 hours), the guard
`timeRange1 > timeRange2` of `ShowResults` does not fire and a cryptoperiod
of 24 hours is computed and reported, instead of the range-error abort that
the claim (and the warning dialog's own message, which demands that the
minimum be strictly smaller than the maximum) requires. -/
theorem C5_min_eq_max_computes :
    ¬ ((24:ℝ) > 24)
    ∧ showResults (0, false) 0 0 0 24 24 = some 24 := by
  refine ⟨by norm_num, ?_⟩
  have hr : finalRiskCalc 1 0 0 0 = 0 := by
    simp [finalRiskCalc]
  have hc : cryptoperiod 24 24 (0:ℝ) = 24 := by
    unfold cryptoperiod
    norm_num [Real.one_rpow]
  simp only [showResults]
  rw [if_neg (by norm_num : ¬ ((24:ℝ) > 24))]
  norm_num [substituteWorstCase, hr, hc]

lemma lookupScores_insertScore (c : String) (s : ℚ) (c' : String) :
    ∀ (acc : List (String × List ℚ)),
      lookupScores (insertScore acc c s) c'
        = lookupScores acc c' ++ (if c' = c then [s] else []) := by
  intro acc
  induction acc with
  | nil =>
    by_cases h : c = c'
    · simp [insertScore, lookupScores, h]
    · simp [insertScore, lookupScores, h, Ne.symm h]
  | cons p rest ih =>
    obtain ⟨a, ss⟩ := p
    by_cases hac : a = c
    · subst hac
      by_cases h2 : a = c'
      · subst h2
        simp [insertScore, lookupScores]
      · simp [insertScore, lookupScores, h2, Ne.symm h2]
    · by_cases h2 : a = c'
      · subst h2
        simp [insertScore, lookupScores, hac]
      · simp [insertScore, lookupScores, hac, h2, ih]

lemma lookupScores_fold (c : String) :
    ∀ (l : List SelectionEntry) (acc : List (String × List ℚ)),
      lookupScores (l.foldl (fun acc e => insertScore acc e.category e.score) acc) c
        = lookupScores acc c
          ++ (l.filter (fun e => e.category = c)).map (fun e => e.score) := by
  intro l
  induction l with
  | nil => intro acc; simp
  | cons e t ih =>
    intro acc
    simp only [List.foldl_cons]
    rw [ih (insertScore acc e.category e.score), lookupScores_insertScore]
    by_cases h : e.category = c
    · simp [List.filter_cons, h, List.append_assoc]
    · simp [List.filter_cons, h, Ne.symm h]

lemma keys_insertScore (c : String) (s : ℚ) :
    ∀ (acc : List (String × List ℚ)),
      (insertScore acc c s).map Prod.fst
        = if c ∈ acc.map Prod.fst then acc.map Prod.fst
          else acc.map Prod.fst ++ [c] := by
  intro acc
  induction acc with
  | nil => simp [insertScore]
  | cons p rest ih =>
    obtain ⟨a, ss⟩ := p
    by_cases hac : a = c
    · subst hac
      simp [insertScore]
    · simp only [insertScore, if_neg hac, List.map_cons]
      rw [ih]
      by_cases h2 : c ∈ rest.map Prod.fst
      · simp [h2, Ne.symm hac]
      · simp [h2, Ne.symm hac]

lemma keys_fold :
    ∀ (l : List SelectionEntry) (acc : List (String × List ℚ)),
      (l.foldl (fun acc e => insertScore acc e.category e.score) acc).map Prod.fst
        = (l.map (fun e => e.category)).foldl
            (fun ks c => if c ∈ ks then ks else ks ++ [c]) (acc.map Prod.fst) := by
  intro l
  induction l with
  | nil => intro acc; simp
  | cons e t ih =>
    intro acc
    simp only [List.foldl_cons, List.map_cons]
    rw [ih (insertScore acc e.category e.score), keys_insertScore]

lemma keys_fold_nodup :
    ∀ (cs : List String) (ks : List String), ks.Nodup →
      (cs.foldl (fun ks c => if c ∈ ks then ks else ks ++ [c]) ks).Nodup := by
  intro cs
  induction cs with
  | nil => intro ks h; simpa using h
  | cons c t ih =>
    intro ks h
    simp only [List.foldl_cons]
    by_cases hc : c ∈ ks
    · rw [if_pos hc]
      exact ih ks h
    · rw [if_neg hc]
      refine ih _ ?_
      simp [List.nodup_append, h, hc]

lemma assoc_map_prod :
    ∀ (assoc : List (String × List ℚ)), (assoc.map Prod.fst).Nodup →
      assoc.map (fun p => p.2.prod)
        = (assoc.map Prod.fst).map (fun c => (lookupScores assoc c).prod) := by
  intro assoc
  induction assoc with
  | nil => intro _; simp
  | cons p rest ih =>
    obtain ⟨a, ss⟩ := p
    intro h
    simp only [List.map_cons] at h ⊢
    have hna : a ∉ rest.map Prod.fst := (List.nodup_cons.1 h).1
    have hrest := (List.nodup_cons.1 h).2
    have hhead : lookupScores ((a, ss) :: rest) a = ss := by simp [lookupScores]
    have htail : (rest.map Prod.fst).map (fun c => (lookupScores ((a, ss) :: rest) c).prod)
        = (rest.map Prod.fst).map (fun c => (lookupScores rest c).prod) := by
      apply List.map_congr_left
      intro c hc
      have hne : ¬ a = c := fun he => hna (he ▸ hc)
      simp [lookupScores, hne]
    rw [hhead, htail, ← ih hrest]

lemma groupScores_keys (rv : List SelectionEntry) :
    (groupScores rv).map Prod.fst = specCategoryKeys rv := by
  unfold groupScores specCategoryKeys
  rw [keys_fold rv []]
  rfl

lemma groupScores_nodup (rv : List SelectionEntry) :
    ((groupScores rv).map Prod.fst).Nodup := by
  rw [groupScores_keys]
  exact keys_fold_nodup _ [] (by simp)

lemma groupScores_lookup (rv : List SelectionEntry) (c : String) :
    lookupScores (groupScores rv) c
      = (rv.filter (fun e => e.category = c)).map (fun e => e.score) := by
  unfold groupScores
  rw [lookupScores_fold c rv []]
  simp [lookupScores]

lemma groupScores_products (rv : List SelectionEntry) :
    (groupScores rv).map (fun p => p.2.prod) = specCategoryProducts rv := by
  rw [assoc_map_prod _ (groupScores_nodup rv), groupScores_keys]
  unfold specCategoryProducts
  apply List.map_congr_left
  intro c _
  rw [groupScores_lookup]

/-- C8 counterexample: for selections
`{Operational: [1.0], Safety: [0.3], Financial: [0.3]}` the clamped average
of the per-category products is `8/15 = 0.5333…`, but the stored value is
`round(8/15, 2) = 0.53`, so the code does not store "exactly that average
clamped to a maximum of 1". -/
theorem C8_counterexample :
    update_impact_stored
        [⟨1, "Operational", "High", 1⟩, ⟨1, "Safety", "Low", 3/10⟩,
         ⟨1, "Financial", "Low", 3/10⟩] = 53/100
    ∧ specImpactScore
        [⟨1, "Operational", "High", 1⟩, ⟨1, "Safety", "Low", 3/10⟩,
         ⟨1, "Financial", "Low", 3/10⟩] = 8/15
    ∧ update_impact_stored
        [⟨1, "Operational", "High", 1⟩, ⟨1, "Safety", "Low", 3/10⟩,
         ⟨1, "Financial", "Low", 3/10⟩]
      ≠ specImpactScore
        [⟨1, "Operational", "High", 1⟩, ⟨1, "Safety", "Low", 3/10⟩,
         ⟨1, "Financial", "Low", 3/10⟩] := by
  have hg : groupScores
      [⟨1, "Operational", "High", 1⟩, ⟨1, "Safety", "Low", 3/10⟩,
       ⟨1, "Financial", "Low", 3/10⟩]
      = [("Operational", [(1:ℚ)]), ("Safety", [3/10]), ("Financial", [3/10])] := rfl
  have hk : specCategoryKeys
      [⟨1, "Operational", "High", 1⟩, ⟨1, "Safety", "Low", 3/10⟩,
       ⟨1, "Financial", "Low", 3/10⟩]
      = ["Operational", "Safety", "Financial"] := rfl
  have hf1 : (([⟨1, "Operational", "High", 1⟩, ⟨1, "Safety", "Low", 3/10⟩,
       ⟨1, "Financial", "Low", 3/10⟩] : List SelectionEntry).filter
        (fun e => e.category = "Operational"))
      = [⟨1, "Operational", "High", 1⟩] := rfl
  have hf2 : (([⟨1, "Operational", "High", 1⟩, ⟨1, "Safety", "Low", 3/10⟩,
       ⟨1, "Financial", "Low", 3/10⟩] : List SelectionEntry).filter
        (fun e => e.category = "Safety"))
      = [⟨1, "Safety", "Low", 3/10⟩] := rfl
  have hf3 : (([⟨1, "Operational", "High", 1⟩, ⟨1, "Safety", "Low", 3/10⟩,
       ⟨1, "Financial", "Low", 3/10⟩] : List SelectionEntry).filter
        (fun e => e.category = "Financial"))
      = [⟨1, "Financial", "Low", 3/10⟩] := rfl
  have hraw : impactExtentRaw
      [⟨1, "Operational", "High", 1⟩, ⟨1, "Safety", "Low", 3/10⟩,
       ⟨1, "Financial", "Low", 3/10⟩] = 8/15 := by
    simp only [impactExtentRaw, hg]
    norm_num [List.cons_ne_nil]
  have hspec : specImpactScore
      [⟨1, "Operational", "High", 1⟩, ⟨1, "Safety", "Low", 3/10⟩,
       ⟨1, "Financial", "Low", 3/10⟩] = 8/15 := by
    simp only [specImpactScore, specCategoryProducts, hk, List.map_cons, List.map_nil,
      hf1, hf2, hf3]
    norm_num [List.cons_ne_nil, min_def]
  have hst : update_impact_stored
      [⟨1, "Operational", "High", 1⟩, ⟨1, "Safety", "Low", 3/10⟩,
       ⟨1, "Financial", "Low", 3/10⟩] = 53/100 := by
    simp only [update_impact_stored, hraw]
    norm_num [pyRound2, roundHalfEven, min_def]
  refine ⟨hst, hspec, ?_⟩
  rw [hst, hspec]
  norm_num

/-- C8 amended: the stored impact value is the spec's scorer (group the
selected severity weights by category, multiply within a category, average
the per-category products, clamp to a maximum of 1) *rounded to two decimal
places* (Python `round`, ties to even); the claim's example
`{Operational: [0.6], Safety: [1.0, 0.3]}` still yields exactly 0.45. -/
theorem C8_impact_stored (rv : List SelectionEntry) :
    update_impact_stored rv = pyRound2 (specImpactScore rv)
    ∧ update_impact_stored
        [⟨1, "Operational", "Medium", 6/10⟩, ⟨1, "Safety", "High", 1⟩,
         ⟨2, "Safety", "Low", 3/10⟩] = 45/100 := by
  constructor
  · simp only [update_impact_stored, specImpactScore, impactExtentRaw]
    rw [groupScores_products]
  · have hg : groupScores
        [⟨1, "Operational", "Medium", 6/10⟩, ⟨1, "Safety", "High", 1⟩,
         ⟨2, "Safety", "Low", 3/10⟩]
        = [("Operational", [(6:ℚ)/10]), ("Safety", [1, 3/10])] := rfl
    have hraw : impactExtentRaw
        [⟨1, "Operational", "Medium", 6/10⟩, ⟨1, "Safety", "High", 1⟩,
         ⟨2, "Safety", "Low", 3/10⟩] = 9/20 := by
      simp only [impactExtentRaw, hg]
      norm_num [List.cons_ne_nil]
    simp only [update_impact_stored, hraw]
    norm_num [pyRound2, roundHalfEven, min_def]

/-- C9 counterexample: on an empty selection list the scorer does return
the `"Incomplete data"` sentinel, but the caller
`update_information_rate_layout` does not handle it: the tuple unpacking
of the sentinel string raises `ValueError` (an error outcome), rather than
the caller consuming the signal. -/
theorem C9_counterexample :
    map_information_rate_categories [] = Sum.inl "Incomplete data"
    ∧ update_information_rate_layout []
        = Except.error "ValueError: unpacking a sentinel string" := by
  exact ⟨rfl, rfl⟩

/-- C9 amended: the scorer signals `"Incomplete data"` whenever fewer than
two selections are present and `"Invalid severity level"` whenever one of
the two consumed level names is not Low/Medium/High; in both cases the
caller receives the sentinel but fails on unpacking it (a `ValueError`
outcome, not a handled signal), so no (label, score) result and no update
of `values.information` occurs. -/
theorem C9_information_rate_signals (rv : List SelectionEntry) :
    (rv.length < 2 → map_information_rate_categories rv = Sum.inl "Incomplete data")
    ∧ (∀ a b t, rv = a :: b :: t →
        severityMapGet a.label = none ∨ severityMapGet b.label = none →
        map_information_rate_categories rv = Sum.inl "Invalid severity level")
    ∧ (∀ s, map_information_rate_categories rv = Sum.inl s →
        update_information_rate_layout rv
          = Except.error "ValueError: unpacking a sentinel string") := by
  refine ⟨?_, ?_, ?_⟩
  · intro hlen
    match rv with
    | [] => rfl
    | [a] => rfl
    | a :: b :: t =>
      simp only [List.length_cons] at hlen
      exact absurd hlen (by omega)
  · intro a b t hrv hnone
    subst hrv
    rcases hnone with ha | hb
    · simp [map_information_rate_categories, ha]
    · rcases hma : severityMapGet a.label with _ | i
      · simp [map_information_rate_categories, hma]
      · simp [map_information_rate_categories, hma, hb]
  · intro s h
    unfold update_information_rate_layout
    rw [h]

/-- Witness for C9 at a concrete selection list whose first level name is
unrecognized. -/
theorem C9_information_rate_witness :
    severityMapGet "Bogus" = none
    ∧ map_information_rate_categories
        [⟨1, "Data Rate", "Bogus", 0⟩, ⟨1, "Publishers", "Low", 1/10⟩]
      = Sum.inl "Invalid severity level"
    ∧ update_information_rate_layout
        [⟨1, "Data Rate", "Bogus", 0⟩, ⟨1, "Publishers", "Low", 1/10⟩]
      = Except.error "ValueError: unpacking a sentinel string" := by
  have h1 : severityMapGet "Bogus" = none := by simp [severityMapGet]
  have h2 := (C9_information_rate_signals
      [⟨1, "Data Rate", "Bogus", 0⟩, ⟨1, "Publishers", "Low", 1/10⟩]).2.1
    ⟨1, "Data Rate", "Bogus", 0⟩ ⟨1, "Publishers", "Low", 1/10⟩ [] rfl (Or.inl h1)
  have h3 := (C9_information_rate_signals
      [⟨1, "Data Rate", "Bogus", 0⟩, ⟨1, "Publishers", "Low", 1/10⟩]).2.2 _ h2
  exact ⟨h1, h2, h3⟩

end ARCC
